import Mathlib

/-!
Shallow embedding of the tiered-storage repository: `src/Retrieval.py`
(`TieredRetrieval`) and `src/Transfer_data_from_cosmo-db_to_blob-storage.py`
(`TieredDataTransfer`).  Records live in a primary document store (Cosmos DB,
modelled as a list keyed by `id`), with payload bytes optionally migrated to
a hot or cold blob store (modelled as path-keyed association lists).  Python
`datetime` values are modelled by a structure carrying both a totally ordered
instant (`ts`, seconds; ISO-8601 string comparison agrees with this order)
and the calendar fields used for blob-path generation.  Exceptions raised by
a backend call are modelled by `Option`/`Except` results; a blob write fails
exactly on the store's designated failing paths.
-/

namespace TieredStorage

/-- Model of a Python `datetime`: `ts` is the instant in seconds (the order
used by `createdAt` comparisons in queries), `year`/`month`/`day` are the
calendar components used by `_generate_blob_path`. -/
structure DateTime where
  ts : Nat
  year : Nat
  month : Nat
  day : Nat
deriving Repr, DecidableEq

/-- Seconds per day, for `timedelta(days=n)` arithmetic. -/
def daySecs : Nat := 86400

/-- A billing record / pointer document, as stored in the primary store or
serialized into a blob.  `storage_tier = none` models the field being absent
(Python `dict.get` returning `None`); `payload` stands for the remaining
domain fields (amount, currency, ...). -/
structure Record where
  id : String
  customerId : Option String
  createdAt : DateTime
  storage_tier : Option String
  blob_path : Option String
  migrated_to_hot_at : Option Nat
  migrated_to_cold_at : Option Nat
  blob_size : Option Nat
  payload : List (String × String)
deriving Repr, DecidableEq

/-- Point lookup by `id` in the primary store (`container.read_item`). -/
def findRec (db : List Record) (rid : String) : Option Record :=
  db.find? (fun r => r.id = rid)

/-- `container.replace_item(id, item)`: replace the document with the given
id by `r'`, leaving everything else unchanged. -/
def replaceItem (db : List Record) (rid : String) (r' : Record) : List Record :=
  db.map (fun x => if x.id = rid then r' else x)

/-- A blob container: stored blobs keyed by path (the deserialized record is
kept, standing for its JSON bytes), plus the set of paths on which any
upload raises (network/storage fault model). -/
structure BlobStore where
  blobs : List (String × Record)
  failPaths : List String
deriving Repr, DecidableEq

/-- `download_blob().readall()` + `json.loads`: fetch the blob at `path`, or
`none` when the blob is absent / the download raises. -/
def lookupBlob (bs : BlobStore) (path : String) : Option Record :=
  (bs.blobs.find? (fun x => x.1 = path)).map (·.2)

/-- `upload_blob(..., overwrite=True)`: store `r` at `path`, replacing any
existing blob there. -/
def putBlobRaw (l : List (String × Record)) (path : String) (r : Record) :
    List (String × Record) :=
  (path, r) :: l.filter (fun x => x.1 ≠ path)

/-! ### Retrieval engine (`src/Retrieval.py`) -/

/-- The mutable hit/miss counters of `TieredRetrieval.performance_stats`
(response-time lists are wall-clock and not modelled). -/
structure PerfStats where
  tier1_hits : Nat
  tier2_hits : Nat
  tier3_hits : Nat
  cache_misses : Nat
deriving Repr, DecidableEq

/-- Outcome of `get_billing_record`: the returned record (or `None`), the
reported source-tier string, the updated counters, and how many blob-store
download calls were made during the lookup. -/
structure GetResult where
  record : Option Record
  tier : String
  stats : PerfStats
  blobCalls : Nat
deriving Repr, DecidableEq

/-- `TieredRetrieval._is_record_in_tier1`: the pointer still holds the full
record iff `storage_tier` is absent or `'cosmos'`. -/
def is_record_in_tier1 (r : Record) : Bool :=
  r.storage_tier = none || r.storage_tier = some "cosmos"

/-- `TieredRetrieval._search_hot_blob` / `_search_cold_blob`: an absent or
empty `blob_path` returns `None` without touching the blob store; otherwise
one download call is made and any failure yields `None`.  Returns the result
together with the number of blob calls made. -/
def searchBlob (bs : BlobStore) (path : Option String) : Option Record × Nat :=
  match path with
  | none => (none, 0)
  | some p => if p = "" then (none, 0) else (lookupBlob bs p, 1)

/-- `TieredRetrieval.get_billing_record`: read the pointer from the primary
store, then dispatch on its `storage_tier` exactly as the Python control
flow falls through the tier-1, tier-2 and tier-3 branches. -/
def get_billing_record (db : List Record) (hot cold : BlobStore)
    (st : PerfStats) (rid : String) : GetResult :=
  match findRec db rid with
  | none =>
      ⟨none, "not-found", { st with cache_misses := st.cache_misses + 1 }, 0⟩
  | some r =>
      if is_record_in_tier1 r then
        ⟨some r, "tier1-cosmos", { st with tier1_hits := st.tier1_hits + 1 }, 0⟩
      else
        let hotStep :=
          if r.storage_tier = some "hot_blob" then searchBlob hot r.blob_path
          else (none, 0)
        match hotStep.1 with
        | some b =>
            ⟨some b, "tier2-hot", { st with tier2_hits := st.tier2_hits + 1 },
              hotStep.2⟩
        | none =>
            let coldStep :=
              if r.storage_tier = some "cold_blob" then searchBlob cold r.blob_path
              else (none, 0)
            match coldStep.1 with
            | some b =>
                ⟨some b, "tier3-cold", { st with tier3_hits := st.tier3_hits + 1 },
                  hotStep.2 + coldStep.2⟩
            | none =>
                ⟨none, "not-found",
                  { st with cache_misses := st.cache_misses + 1 },
                  hotStep.2 + coldStep.2⟩

/-- One entry of `get_records_by_customer`'s result: the resolved record,
the source-tier string, and the record id. -/
abbrev CustomerEntry := Record × String × String

/-- The per-item body of `get_records_by_customer`'s loop: tier-1 pointers
are appended directly; tier-2/tier-3 pointers are resolved through the blob
store, and an item whose blob fetch fails is skipped (not appended). -/
def resolveCustomerItem (hot cold : BlobStore) (acc : List CustomerEntry)
    (item : Record) : List CustomerEntry :=
  if is_record_in_tier1 item then acc ++ [(item, "tier1-cosmos", item.id)]
  else if item.storage_tier = some "hot_blob" then
    match (searchBlob hot item.blob_path).1 with
    | some b => acc ++ [(b, "tier2-hot", item.id)]
    | none => acc
  else if item.storage_tier = some "cold_blob" then
    match (searchBlob cold item.blob_path).1 with
    | some b => acc ++ [(b, "tier3-cold", item.id)]
    | none => acc
  else acc

/-- The by-customer query: `customerId = @customer_id ORDER BY createdAt
DESC`.  `limit` is passed to the SDK as `max_item_count`, which only sets
the page size; `list(query_items(...))` drains every page, so the result is
not bounded by it. -/
def selectByCustomer (db : List Record) (cid : String) (limit : Nat) :
    List Record :=
  let _pageSize := limit
  (db.filter (fun r => r.customerId = some cid)).insertionSort
    (fun a b => b.createdAt.ts ≤ a.createdAt.ts)

/-- `TieredRetrieval.get_records_by_customer`: the whole body runs inside a
`try`; `queryOk = false` models the primary-store query raising, and the
`except` clause swallows the error and returns the empty list. -/
def get_records_by_customer (queryOk : Bool) (db : List Record)
    (hot cold : BlobStore) (cid : String) (limit : Nat) :
    Except String (List CustomerEntry) :=
  let queried : Except String (List Record) :=
    if queryOk then .ok (selectByCustomer db cid limit)
    else .error ("Error retrieving records for customer " ++ cid)
  match queried with
  | .ok items => .ok (items.foldl (resolveCustomerItem hot cold) [])
  | .error _ => .ok []

/-- The tier-count fields of `get_storage_statistics`'s result (the live
performance snapshot it also carries is independent of the store contents
and not modelled here). -/
structure TierStats where
  tier1_cosmos : Nat
  tier2_hot_blob : Nat
  tier3_cold_blob : Nat
  total_records : Nat
deriving Repr, DecidableEq

/-- The zero-initialised `stats` dictionary of `get_storage_statistics`. -/
def baseTierStats : TierStats := ⟨0, 0, 0, 0⟩

/-- First-occurrence deduplication, for the distinct group keys of the
`GROUP BY c.storage_tier` aggregation. -/
def firstKeys : List (Option String) → List (Option String)
  | [] => []
  | t :: rest => t :: (firstKeys rest).filter (fun u => u ≠ t)

/-- Result rows of the `GROUP BY c.storage_tier` aggregation: one row per
distinct `storage_tier` value occurring in the store (`none` for records
with the field absent, whose group row omits the field), with the count of
records in that group. -/
def tierGroups (db : List Record) : List (Option String × Nat) :=
  (firstKeys (db.map (·.storage_tier))).map
    (fun t => (t, (db.filter (fun r => r.storage_tier = t)).length))

/-- The per-row body of `get_storage_statistics`'s loop:
`tier = item.get('storage_tier', 'cosmos')`, then the matching bucket is
ASSIGNED the row's count (`stats[...] = count`, not `+=`) and the row's
count is added to the running total. -/
def statRow (st : TierStats) (row : Option String × Nat) : TierStats :=
  let tier := row.1.getD "cosmos"
  let cnt := row.2
  let st1 :=
    if tier = "cosmos" then { st with tier1_cosmos := cnt }
    else if tier = "hot_blob" then { st with tier2_hot_blob := cnt }
    else if tier = "cold_blob" then { st with tier3_cold_blob := cnt }
    else st
  { st1 with total_records := st1.total_records + cnt }

/-- `TieredRetrieval.get_storage_statistics`: run the group-by aggregation
and fold its rows into the stats; if the aggregation raises
(`queryOk = false`), the `except` clause swallows the error and the
zero-initialised stats are returned. -/
def get_storage_statistics (queryOk : Bool) (db : List Record) :
    Except String TierStats :=
  let queried : Except String (List (Option String × Nat)) :=
    if queryOk then .ok (tierGroups db)
    else .error "Error getting storage statistics"
  match queried with
  | .ok rows => .ok (rows.foldl statRow baseTierStats)
  | .error _ => .ok baseTierStats

/-! ### Migration engine (`src/Transfer_data_from_cosmo-db_to_blob-storage.py`) -/

/-- The non-ASCII alphanumerics of the Latin-1 Supplement block
(U+00A0–U+00FF), per the Unicode data Python's `str.isalnum` follows there:
the ordinal indicators ª/º, superscripts ²/³/¹, micro sign µ, the vulgar
fractions ¼/½/¾, and the letters U+00C0–U+00FF minus the two operators ×
(U+00D7) and ÷ (U+00F7). -/
def latin1Alnum (n : Nat) : Bool :=
  n = 0xAA || n = 0xB2 || n = 0xB3 || n = 0xB5 || n = 0xB9 || n = 0xBA ||
    n = 0xBC || n = 0xBD || n = 0xBE ||
    (0xC0 ≤ n && n ≤ 0xFF && !(n = 0xD7) && !(n = 0xF7))

/-- Python's Unicode-aware `str.isalnum` for a single character: ASCII
alphanumerics plus the non-ASCII alphanumerics.  Beyond U+00FF Python also
accepts all Unicode letters/numbers; the model carries the table for the
Latin-1 block, the only non-ASCII range the development evaluates. -/
def pyIsAlnum (c : Char) : Bool :=
  c.isAlphanum || latin1Alnum c.toNat

/-- One character of `_generate_blob_path`'s sanitizer:
`c if c.isalnum() or c in ['_', '-'] else '_'`.  Note that `str.isalnum`
keeps non-ASCII alphanumerics such as `'é'`. -/
def safeChar (c : Char) : Char :=
  if pyIsAlnum c || c = '_' || c = '-' then c else '_'

/-- The customer-id sanitization of `_generate_blob_path`:
`"".join(c if c.isalnum() or c in ['_', '-'] else '_' for c in customer_id)`,
i.e. the string rebuilt from its characters mapped through `safeChar`. -/
def sanitizeCustomerId (s : String) : String := ⟨s.data.map safeChar⟩

/-- Python's `f"{n:02d}"` for the month/day components. -/
def pad2 (n : Nat) : String := if n < 10 then "0" ++ toString n else toString n

/-- `TieredDataTransfer._generate_blob_path` on a well-formed `createdAt`
(the structured `DateTime` never fails to parse, so the `{tier}/error/...`
fallback branch is unreachable in the model). -/
def generate_blob_path (r : Record) (tier : String) : String :=
  tier ++ "/" ++ toString r.createdAt.year ++ "/" ++ pad2 r.createdAt.month ++
    "/" ++ pad2 r.createdAt.day ++ "/" ++
    sanitizeCustomerId (r.customerId.getD "unknown") ++ "/" ++ r.id ++ ".json"

/-- Abstract byte length of `json.dumps(record).encode('utf-8')`: the exact
count is irrelevant to the claims, only that `_store_in_blob` returns a size
determined by the record being written. -/
def serializedSize (r : Record) : Nat :=
  r.id.length + (r.customerId.getD "unknown").length + r.payload.length + 2

/-- `TieredDataTransfer._store_in_blob`: serialize and upload with
`overwrite=True`; an upload on a failing path raises (`none`), otherwise the
updated container and the byte size written are returned. -/
def storeInBlob (bs : BlobStore) (r : Record) (path : String) :
    Option (BlobStore × Nat) :=
  if bs.failPaths.contains path then none
  else some ({ bs with blobs := putBlobRaw bs.blobs path r }, serializedSize r)

/-- `TieredDataTransfer._delete_from_blob`: best-effort delete (its own
exceptions are caught inside it and never propagate). -/
def deleteBlob (bs : BlobStore) (path : String) : BlobStore :=
  { bs with blobs := bs.blobs.filter (fun x => x.1 ≠ path) }

/-- One stage's entry of `TieredDataTransfer.stats`. -/
structure StageStats where
  success : Nat
  failed : Nat
  errors : List String
deriving Repr, DecidableEq

/-- The state a migration run acts on: the primary store, both blob
containers, and the mutable statistics. -/
structure MigState where
  cosmos : List Record
  hot : BlobStore
  cold : BlobStore
  t12 : StageStats
  t23 : StageStats
  total_size_migrated : Nat
deriving Repr, DecidableEq

/-- The tier filter of the tier1→tier2 selection query:
`c.storage_tier IS NULL OR c.storage_tier = 'cosmos'`. -/
def tier1Filter (r : Record) : Bool :=
  r.storage_tier = none || r.storage_tier = some "cosmos"

/-- The age window of the tier1→tier2 selection query:
`@three_months_ago <= c.createdAt < @one_month_ago` with
`one_month_ago = now - 30 days` and `three_months_ago = now - 90 days`. -/
def inWindowT1T2 (now : Nat) (r : Record) : Bool :=
  now - 90 * daySecs ≤ r.createdAt.ts && r.createdAt.ts < now - 30 * daySecs

/-- `ORDER BY c.createdAt ASC` (ISO-8601 string order agrees with `ts`). -/
def byCreatedAt : Record → Record → Prop :=
  fun a b => a.createdAt.ts ≤ b.createdAt.ts

instance : DecidableRel byCreatedAt :=
  fun a b => Nat.decLe a.createdAt.ts b.createdAt.ts

instance : IsTotal Record byCreatedAt :=
  ⟨fun a b => Nat.le_total a.createdAt.ts b.createdAt.ts⟩

instance : IsTrans Record byCreatedAt := ⟨fun _ _ _ => Nat.le_trans⟩

/-- The tier1→tier2 selection: filter by age window and tier, order by
creation timestamp ascending.  `batch` is passed to the SDK as
`max_item_count`, which only sets the page size; `list(query_items(...))`
drains every page, so the result is not bounded by it. -/
def selectT1T2 (now : Nat) (db : List Record) (batch : Nat) : List Record :=
  let _pageSize := batch
  (db.filter (fun r => inWindowT1T2 now r && tier1Filter r)).insertionSort
    byCreatedAt

/-- The per-record body of `migrate_tier1_to_tier2`'s loop: write the (still
unmodified) record to the hot container at its generated path; only if the
upload succeeded, set the tiering fields and replace the pointer in the
primary store and count a success; if the upload raised, the `except`
clause counts a failure and appends an error naming the record id, leaving
the stores untouched. -/
def migrateStepT1T2 (now : Nat) (s : MigState) (item : Record) : MigState :=
  let path := generate_blob_path item "hot"
  match storeInBlob s.hot item path with
  | none =>
      let msg := "Record " ++ item.id ++ ": blob upload failed"
      { s with
        t12 := { s.t12 with
                 failed := s.t12.failed + 1
                 errors := s.t12.errors ++ [msg] } }
  | some (hot', size) =>
      let item' := { item with
                     storage_tier := some "hot_blob"
                     blob_path := some path
                     migrated_to_hot_at := some now
                     blob_size := some size }
      { s with
        cosmos := replaceItem s.cosmos item.id item'
        hot := hot'
        t12 := { s.t12 with success := s.t12.success + 1 }
        total_size_migrated := s.total_size_migrated + size }

/-- `TieredDataTransfer.migrate_tier1_to_tier2`: if the selection query
itself raises (`queryOk = false`) the exception is re-raised to the caller;
otherwise every selected record is processed by the per-record loop body and
no exception escapes. -/
def migrate_tier1_to_tier2 (queryOk : Bool) (now batch : Nat) (s : MigState) :
    Except String MigState :=
  if queryOk then
    .ok ((selectT1T2 now s.cosmos batch).foldl (migrateStepT1T2 now) s)
  else .error "Tier 1 to Tier 2 migration failed"

/-- The tier2→tier3 selection: `c.createdAt < @three_months_ago AND
c.storage_tier = 'hot_blob' ORDER BY c.createdAt ASC`.  As in the other
queries, `batch` only sets the SDK page size and does not bound the drained
result. -/
def selectT2T3 (now : Nat) (db : List Record) (batch : Nat) : List Record :=
  let _pageSize := batch
  (db.filter (fun r =>
      decide (r.createdAt.ts < now - 90 * daySecs) &&
        r.storage_tier = some "hot_blob")).insertionSort byCreatedAt

/-- The per-record body of `migrate_tier2_to_tier3`'s loop: read the full
record back from the hot container (a missing `blob_path` key or a failed
fetch raises into the per-record `except`, counting a failure), write it to
the cold container, and only on a successful write update the pointer and
run the best-effort delete.  Note the source reassigns `item['blob_path']`
to the cold path before the delete, so the delete targets the COLD path in
the hot container and the original hot blob is left orphaned. -/
def migrateStepT2T3 (now : Nat) (s : MigState) (item : Record) : MigState :=
  let failWith := fun (msg : String) =>
    { s with
      t23 := { s.t23 with
               failed := s.t23.failed + 1
               errors := s.t23.errors ++ ["Record " ++ item.id ++ ": " ++ msg] } }
  match item.blob_path with
  | none => failWith "missing blob_path"
  | some hotPath =>
    match lookupBlob s.hot hotPath with
    | none => failWith "Could not retrieve record from hot blob storage"
    | some full =>
      let coldPath := generate_blob_path full "cold"
      match storeInBlob s.cold full coldPath with
      | none => failWith "blob upload failed"
      | some (cold', size) =>
        let item' := { item with
                       storage_tier := some "cold_blob"
                       blob_path := some coldPath
                       migrated_to_cold_at := some now
                       blob_size := some size }
        { s with
          cosmos := replaceItem s.cosmos item.id item'
          cold := cold'
          hot := deleteBlob s.hot coldPath
          t23 := { s.t23 with success := s.t23.success + 1 }
          total_size_migrated := s.total_size_migrated + size }

/-- `TieredDataTransfer.migrate_tier2_to_tier3`: same raise-on-query-failure
and per-record isolation structure as the tier1→tier2 stage. -/
def migrate_tier2_to_tier3 (queryOk : Bool) (now batch : Nat) (s : MigState) :
    Except String MigState :=
  if queryOk then
    .ok ((selectT2T3 now s.cosmos batch).foldl (migrateStepT2T3 now) s)
  else .error "Tier 2 to Tier 3 migration failed"

/-! ### Concrete sample data, used by witnesses and counterexamples -/

/-- An empty blob container with no failing paths. -/
def emptyBS : BlobStore := ⟨[], []⟩

/-- Zeroed retrieval counters. -/
def stats0 : PerfStats := ⟨0, 0, 0, 0⟩

/-- A reference instant for the samples: day 100 (so the tier1→tier2 window
is `[day 10, day 70)`). -/
def nowS : Nat := 100 * daySecs

/-- A 50-day-old record still fully in the primary store (no tier field). -/
def recA : Record :=
  ⟨"rec-a", some "cust-1", ⟨50 * daySecs, 2025, 1, 15⟩, none, none, none, none,
    none, [("amount", "12.50")]⟩

/-- A 5-day-old record, too young to migrate, tier field absent. -/
def recYoung : Record :=
  ⟨"rec-young", some "cust-1", ⟨95 * daySecs, 2025, 3, 1⟩, none, none, none,
    none, none, []⟩

/-- A migrated pointer record: `storage_tier = 'hot_blob'`, 95 days old. -/
def recHotPtr : Record :=
  ⟨"rec-hot", some "cust-2", ⟨5 * daySecs, 2024, 12, 1⟩, some "hot_blob",
    some "hot/2024/12/01/cust-2/rec-hot.json", some (98 * daySecs), none,
    some 24, []⟩

/-- The full record behind `recHotPtr`, as stored in the hot container. -/
def recHotFull : Record :=
  ⟨"rec-hot", some "cust-2", ⟨5 * daySecs, 2024, 12, 1⟩, none, none, none,
    none, none, [("amount", "7.00")]⟩

/-- A pointer with an unrecognized tier value. -/
def recWeird : Record :=
  ⟨"rec-weird", some "cust-3", ⟨40 * daySecs, 2025, 1, 5⟩, some "archived",
    none, none, none, none, []⟩

/-- A `storage_tier = 'cosmos'` record (explicit primary value). -/
def recCosmos : Record :=
  ⟨"rec-cosmos", some "cust-1", ⟨60 * daySecs, 2025, 1, 25⟩, some "cosmos",
    none, none, none, none, []⟩

/-- A second explicit-`'cosmos'` record. -/
def recCosmos2 : Record :=
  ⟨"rec-cosmos2", some "cust-4", ⟨65 * daySecs, 2025, 1, 30⟩, some "cosmos",
    none, none, none, none, []⟩

/-- A hot container holding `recHotPtr`'s full record. -/
def hotBS : BlobStore :=
  ⟨[("hot/2024/12/01/cust-2/rec-hot.json", recHotFull)], []⟩

/-- A migration state over a small primary store, with every blob path
writable. -/
def migS : MigState :=
  ⟨[recHotPtr, recA, recYoung], hotBS, emptyBS, ⟨0, 0, []⟩, ⟨0, 0, []⟩, 0⟩

/-- A record agreeing with `recA` on creation date, customer id and id, but
differing in its domain payload. -/
def recAVariant : Record :=
  ⟨"rec-a", some "cust-1", ⟨50 * daySecs, 2025, 1, 15⟩, none, none, none, none,
    none, [("amount", "99.99"), ("currency", "EUR")]⟩

/-- A migration state whose hot container rejects writes at `recA`'s
generated blob path. -/
def migSFail : MigState :=
  ⟨[recA], ⟨[], ["hot/2025/01/15/cust-1/rec-a.json"]⟩, emptyBS, ⟨0, 0, []⟩,
    ⟨0, 0, []⟩, 0⟩

/-- A 55-day-old record with no tier metadata: a second member of the
tier1→tier2 selection window. -/
def recB : Record :=
  ⟨"rec-b", some "cust-1", ⟨45 * daySecs, 2025, 1, 10⟩, none, none, none,
    none, none, []⟩

/-- A migration state holding two window-eligible records and nothing
else. -/
def migSTwo : MigState :=
  ⟨[recA, recB], emptyBS, emptyBS, ⟨0, 0, []⟩, ⟨0, 0, []⟩, 0⟩

/-! ## Helper lemmas -/

theorem findRec_mem_of_eq_some {db : List Record} {i : String} {r : Record}
    (h : findRec db i = some r) : r ∈ db ∧ r.id = i := by
  refine ⟨List.mem_of_find?_eq_some h, ?_⟩
  have hp := List.find?_some h
  simpa using hp

theorem findRec_of_mem_nodup {db : List Record} {r : Record}
    (hnd : (db.map Record.id).Nodup) (hm : r ∈ db) :
    findRec db r.id = some r := by
  induction db with
  | nil => cases hm
  | cons x xs ih =>
    rcases List.mem_cons.mp hm with rfl | hm'
    · simp [findRec]
    · have hnd' : (xs.map Record.id).Nodup := (List.nodup_cons.mp hnd).2
      have hx : x.id ≠ r.id := by
        intro hxe
        exact (List.nodup_cons.mp hnd).1 (hxe ▸ List.mem_map_of_mem Record.id hm')
      simpa [findRec, List.find?_cons, hx] using ih hnd' hm'

theorem findRec_replaceItem_ne {db : List Record} {i j : String} {r' : Record}
    (h : i ≠ j) (h2 : r'.id ≠ i) :
    findRec (replaceItem db j r') i = findRec db i := by
  induction db with
  | nil => rfl
  | cons x xs ih =>
    show findRec ((if x.id = j then r' else x) :: replaceItem xs j r') i =
      findRec (x :: xs) i
    by_cases hx : x.id = j
    · have hxi : ¬(x.id = i) := fun he => h (he ▸ hx)
      rw [if_pos hx]
      unfold findRec
      rw [List.find?_cons, List.find?_cons, decide_eq_false h2,
        decide_eq_false hxi]
      exact ih
    · rw [if_neg hx]
      unfold findRec
      rw [List.find?_cons, List.find?_cons]
      by_cases hxi : x.id = i
      · rw [decide_eq_true hxi]
      · rw [decide_eq_false hxi]
        exact ih

theorem find?_filter_ne (l : List (String × Record)) {p q : String}
    (h : q ≠ p) :
    (l.filter (fun x => x.1 ≠ p)).find? (fun x => x.1 = q) =
      l.find? (fun x => x.1 = q) := by
  induction l with
  | nil => rfl
  | cons x xs ih =>
    rw [List.filter_cons]
    by_cases hx : x.1 = p
    · have hne : ¬(decide (x.1 ≠ p) = true) := by simp [hx]
      rw [if_neg hne]
      have hq : ¬(x.1 = q) := fun he => h (he ▸ hx)
      rw [List.find?_cons, decide_eq_false hq]
      exact ih
    · have hyes : decide (x.1 ≠ p) = true := by simp [hx]
      rw [if_pos hyes]
      rw [List.find?_cons, List.find?_cons]
      by_cases hq : x.1 = q
      · rw [decide_eq_true hq]
      · rw [decide_eq_false hq]
        exact ih

theorem lookupBlob_put_ne (bs : BlobStore) {p q : String} (r : Record)
    (h : q ≠ p) :
    lookupBlob { bs with blobs := putBlobRaw bs.blobs p r } q =
      lookupBlob bs q := by
  have hpq : ¬((p, r).1 = q) := fun he => h he.symm
  unfold lookupBlob putBlobRaw
  rw [List.find?_cons, decide_eq_false hpq]
  show ((bs.blobs.filter (fun x => x.1 ≠ p)).find?
      (fun x => x.1 = q)).map (·.2) =
    (bs.blobs.find? (fun x => x.1 = q)).map (·.2)
  rw [find?_filter_ne bs.blobs h]

theorem lookupBlob_put_same (bs : BlobStore) (p : String) (r : Record) :
    lookupBlob { bs with blobs := putBlobRaw bs.blobs p r } p = some r := by
  simp [lookupBlob, putBlobRaw, List.find?_cons]

/-! ## Claim theorems -/

/-- C1: for a record whose primary-store pointer has `storage_tier` absent
or equal to the primary-tier value `'cosmos'`, `get_billing_record` returns
the pointer record itself, reports tier `'tier1-cosmos'`, increments only
the tier-1 hit counter, and makes no blob store calls. -/
theorem tier1_get_returns_pointer (db : List Record) (hot cold : BlobStore)
    (st : PerfStats) (rid : String) (r : Record)
    (hfind : findRec db rid = some r)
    (htier : r.storage_tier = none ∨ r.storage_tier = some "cosmos") :
    get_billing_record db hot cold st rid =
      ⟨some r, "tier1-cosmos", { st with tier1_hits := st.tier1_hits + 1 }, 0⟩ := by
  have h1 : is_record_in_tier1 r = true := by
    rcases htier with h | h <;> simp [is_record_in_tier1, h]
  unfold get_billing_record
  rw [hfind]
  simp [h1]

/-- C1 witness: a concrete tier-1 lookup. -/
theorem tier1_get_returns_pointer_witness :
    get_billing_record [recA] hotBS emptyBS stats0 "rec-a" =
      ⟨some recA, "tier1-cosmos", ⟨1, 0, 0, 0⟩, 0⟩ :=
  tier1_get_returns_pointer [recA] hotBS emptyBS stats0 "rec-a" recA (by rfl)
    (Or.inl rfl)

/-- C2: for a pointer with `storage_tier = 'hot_blob'`, the lookup is
decided by the blob fetch at the pointer's `blob_path`: a successful fetch
returns exactly the blob's content tagged `'tier2-hot'`; a failed fetch
makes the whole lookup return no record with tier `'not-found'` (the
stage-1 pointer data is never returned as a fallback). -/
theorem tier2_get_is_blob_fetch (db : List Record) (hot cold : BlobStore)
    (st : PerfStats) (rid : String) (r : Record)
    (hfind : findRec db rid = some r)
    (htier : r.storage_tier = some "hot_blob") :
    (∀ b, (searchBlob hot r.blob_path).1 = some b →
        get_billing_record db hot cold st rid =
          ⟨some b, "tier2-hot", { st with tier2_hits := st.tier2_hits + 1 },
            (searchBlob hot r.blob_path).2⟩) ∧
    ((searchBlob hot r.blob_path).1 = none →
        (get_billing_record db hot cold st rid).record = none ∧
        (get_billing_record db hot cold st rid).tier = "not-found" ∧
        (get_billing_record db hot cold st rid).stats.cache_misses =
          st.cache_misses + 1) := by
  have h1 : is_record_in_tier1 r = false := by
    simp [is_record_in_tier1, htier]
  constructor
  · intro b hb
    unfold get_billing_record
    rw [hfind]
    simp [h1, htier, hb]
  · intro hb
    unfold get_billing_record
    rw [hfind]
    simp [h1, htier, hb]

/-- C2 witness: a concrete tier-2 lookup resolving through the hot blob. -/
theorem tier2_get_is_blob_fetch_witness :
    get_billing_record [recHotPtr] hotBS emptyBS stats0 "rec-hot" =
      ⟨some recHotFull, "tier2-hot", ⟨0, 1, 0, 0⟩, 1⟩ :=
  (tier2_get_is_blob_fetch [recHotPtr] hotBS emptyBS stats0 "rec-hot"
    recHotPtr (by rfl) rfl).1 recHotFull (by rfl)

/-- C10: a pointer that exists in the primary store but carries an
unrecognized `storage_tier`, or a recognized tier2/tier3 value with an
absent or empty `blob_path`, makes `get_billing_record` return a not-found
outcome and increment the miss counter. -/
theorem anomalous_pointer_is_miss (db : List Record) (hot cold : BlobStore)
    (st : PerfStats) (rid : String) (r : Record)
    (hfind : findRec db rid = some r)
    (hbad : (∃ t, r.storage_tier = some t ∧ t ≠ "cosmos" ∧ t ≠ "hot_blob" ∧
          t ≠ "cold_blob") ∨
        ((r.storage_tier = some "hot_blob" ∨ r.storage_tier = some "cold_blob") ∧
          (r.blob_path = none ∨ r.blob_path = some ""))) :
    (get_billing_record db hot cold st rid).record = none ∧
    (get_billing_record db hot cold st rid).tier = "not-found" ∧
    (get_billing_record db hot cold st rid).stats.cache_misses =
      st.cache_misses + 1 := by
  rcases hbad with ⟨t, ht, hc, hh, hcold⟩ | ⟨htier, hpath⟩
  · have h1 : is_record_in_tier1 r = false := by
      simp [is_record_in_tier1, ht, hc]
    unfold get_billing_record
    rw [hfind]
    simp [h1, ht, hh, hcold]
  · have h1 : is_record_in_tier1 r = false := by
      rcases htier with h | h <;> simp [is_record_in_tier1, h]
    have hsb : ∀ bs : BlobStore, searchBlob bs r.blob_path = (none, 0) := by
      intro bs
      rcases hpath with h | h <;> simp [searchBlob, h]
    rcases htier with h | h
    · unfold get_billing_record
      rw [hfind]
      simp [h1, h, hsb]
    · unfold get_billing_record
      rw [hfind]
      simp [h1, h, hsb]

/-- C10 witness: a pointer with an unrecognized tier value yields a miss. -/
theorem anomalous_pointer_is_miss_witness :
    (get_billing_record [recWeird] hotBS emptyBS stats0 "rec-weird").record =
        none ∧
    (get_billing_record [recWeird] hotBS emptyBS stats0 "rec-weird").tier =
        "not-found" ∧
    (get_billing_record [recWeird] hotBS emptyBS stats0
        "rec-weird").stats.cache_misses = 1 :=
  anomalous_pointer_is_miss [recWeird] hotBS emptyBS stats0 "rec-weird"
    recWeird (by rfl)
    (Or.inl ⟨"archived", rfl, by decide, by decide, by decide⟩)

/-- C6 counterexample: `'é'` lies outside `[A-Za-z0-9_-]`, yet the
sanitizer keeps it, because Python's `str.isalnum` accepts non-ASCII
alphanumerics — the claimed replace-everything-outside-the-charset rule is
false on the code. -/
theorem sanitize_keeps_unicode_alnum :
    ¬(('A' ≤ 'é' ∧ 'é' ≤ 'Z') ∨ ('a' ≤ 'é' ∧ 'é' ≤ 'z') ∨
        ('0' ≤ 'é' ∧ 'é' ≤ '9') ∨ 'é' = '_' ∨ 'é' = '-') ∧
    safeChar 'é' = 'é' ∧
    sanitizeCustomerId "cliché" = "cliché" ∧
    sanitizeCustomerId "cliché" ≠ "clich_" :=
  ⟨by decide, rfl, rfl, by decide⟩

/-- C6 (amended): `generate_blob_path` is a function of (tier, creation
date, customer id, record id) only and produces the string
`{tier}/{year}/{month:02}/{day:02}/{sanitized_customer_id}/{id}.json`; on
ASCII characters the sanitization keeps exactly `[A-Za-z0-9_-]` and replaces
every other character by `'_'` (non-ASCII alphanumerics are kept, per
`str.isalnum`); in particular `"cust/1 2"` sanitizes to `"cust_1_2"`. -/
theorem blob_path_deterministic_format :
    (∀ r1 r2 : Record, ∀ tier : String, r1.createdAt = r2.createdAt →
        r1.customerId = r2.customerId → r1.id = r2.id →
        generate_blob_path r1 tier = generate_blob_path r2 tier) ∧
    (∀ r : Record, ∀ tier : String, generate_blob_path r tier =
        tier ++ "/" ++ toString r.createdAt.year ++ "/" ++
          pad2 r.createdAt.month ++ "/" ++ pad2 r.createdAt.day ++ "/" ++
          sanitizeCustomerId (r.customerId.getD "unknown") ++ "/" ++ r.id ++
          ".json") ∧
    (∀ c : Char, c.toNat < 128 → safeChar c =
        if ('A' ≤ c ∧ c ≤ 'Z') ∨ ('a' ≤ c ∧ c ≤ 'z') ∨ ('0' ≤ c ∧ c ≤ '9') ∨
            c = '_' ∨ c = '-' then c else '_') ∧
    (∀ s : String, (sanitizeCustomerId s).data = s.data.map safeChar) ∧
    sanitizeCustomerId "cust/1 2" = "cust_1_2" := by
  refine ⟨?_, ?_, ?_, ?_, ?_⟩
  · intro r1 r2 tier h1 h2 h3
    simp [generate_blob_path, h1, h2, h3]
  · intro r tier
    rfl
  · intro c hc
    have hlat : latin1Alnum c.toNat = false := by
      simp only [latin1Alnum, Bool.or_eq_false_iff, Bool.and_eq_false_iff,
        decide_eq_false_iff_not, Bool.not_eq_false', decide_eq_true_eq]
      omega
    unfold safeChar pyIsAlnum
    rw [hlat, Bool.or_false]
    congr 1
    simp only [Char.isAlphanum, Char.isAlpha, Char.isDigit, Char.isUpper,
      Char.isLower, Char.le_def, decide_eq_true_eq, Bool.or_eq_true,
      Bool.and_eq_true, ge_iff_le, eq_iff_iff]
    constructor
    · intro hx
      tauto
    · intro hx
      tauto
  · intro s
    rfl
  · decide

/-- C6 witness: two records sharing (creation date, customer id, id) but
with different payloads generate the same blob path, and the sanitizer maps
the ASCII character `'/'` to `'_'`. -/
theorem blob_path_deterministic_format_witness :
    generate_blob_path recA "hot" = generate_blob_path recAVariant "hot" ∧
    safeChar '/' = '_' :=
  ⟨blob_path_deterministic_format.1 recA recAVariant "hot" rfl rfl rfl,
    (blob_path_deterministic_format.2.2.1 '/' (by decide)).trans (by decide)⟩

/-- C3: in the per-record body of `migrate_tier1_to_tier2`, the pointer in
the primary store is replaced — with `storage_tier='hot_blob'`, the blob
path, the migration timestamp and the blob size — only when the hot-blob
write completed (the written blob is then present at the generated path);
when the write fails, the pointer store and blob store are left unchanged
and the record is counted as failed. -/
theorem pointer_update_only_after_write (now : Nat) (s : MigState)
    (item : Record) :
    (s.hot.failPaths.contains (generate_blob_path item "hot") = true →
        (migrateStepT1T2 now s item).cosmos = s.cosmos ∧
        (migrateStepT1T2 now s item).hot = s.hot ∧
        (migrateStepT1T2 now s item).t12.failed = s.t12.failed + 1 ∧
        (migrateStepT1T2 now s item).t12.success = s.t12.success) ∧
    (s.hot.failPaths.contains (generate_blob_path item "hot") = false →
        lookupBlob (migrateStepT1T2 now s item).hot
            (generate_blob_path item "hot") = some item ∧
        (migrateStepT1T2 now s item).cosmos =
          replaceItem s.cosmos item.id
            { item with
              storage_tier := some "hot_blob"
              blob_path := some (generate_blob_path item "hot")
              migrated_to_hot_at := some now
              blob_size := some (serializedSize item) } ∧
        (migrateStepT1T2 now s item).t12.success = s.t12.success + 1) := by
  constructor
  · intro h
    have hm : generate_blob_path item "hot" ∈ s.hot.failPaths := by
      simpa using h
    simp [migrateStepT1T2, storeInBlob, hm]
  · intro h
    have hm : generate_blob_path item "hot" ∉ s.hot.failPaths := by
      simpa using h
    refine ⟨?_, ?_, ?_⟩
    · simp [migrateStepT1T2, storeInBlob, hm, lookupBlob_put_same]
    · simp [migrateStepT1T2, storeInBlob, hm]
    · simp [migrateStepT1T2, storeInBlob, hm]

/-- C3 witness: the failing branch on a state that rejects `recA`'s path,
and the succeeding branch on a state accepting every path. -/
theorem pointer_update_only_after_write_witness :
    ((migrateStepT1T2 nowS migSFail recA).cosmos = migSFail.cosmos ∧
      (migrateStepT1T2 nowS migSFail recA).hot = migSFail.hot ∧
      (migrateStepT1T2 nowS migSFail recA).t12.failed =
        migSFail.t12.failed + 1 ∧
      (migrateStepT1T2 nowS migSFail recA).t12.success =
        migSFail.t12.success) ∧
    lookupBlob (migrateStepT1T2 nowS migS recA).hot
      (generate_blob_path recA "hot") = some recA :=
  ⟨(pointer_update_only_after_write nowS migSFail recA).1 (by decide),
    ((pointer_update_only_after_write nowS migS recA).2 (by decide)).1⟩

/-- C5: each migration stage raises to its caller exactly when the selection
query itself fails; a per-record error (a rejected hot-blob upload in stage
1, an unreadable hot blob in stage 2) is absorbed inside that record's loop
body, incrementing the stage's failed count and appending an error message
that names the record id, and the loop proceeds over the remaining records
unconditionally. -/
theorem stage_raises_iff_query_fails :
    (∀ now batch : Nat, ∀ s : MigState,
        (∃ e, migrate_tier1_to_tier2 false now batch s = .error e) ∧
        (∃ e, migrate_tier2_to_tier3 false now batch s = .error e) ∧
        (∃ s1, migrate_tier1_to_tier2 true now batch s = .ok s1) ∧
        (∃ s2, migrate_tier2_to_tier3 true now batch s = .ok s2)) ∧
    (∀ now : Nat, ∀ s : MigState, ∀ item : Record,
        s.hot.failPaths.contains (generate_blob_path item "hot") = true →
        (migrateStepT1T2 now s item).t12.failed = s.t12.failed + 1 ∧
        ∃ a b, (migrateStepT1T2 now s item).t12.errors =
          s.t12.errors ++ [a ++ item.id ++ b]) ∧
    (∀ now : Nat, ∀ s : MigState, ∀ item : Record,
        (∀ p, item.blob_path = some p → lookupBlob s.hot p = none) →
        (migrateStepT2T3 now s item).t23.failed = s.t23.failed + 1 ∧
        ∃ a b, (migrateStepT2T3 now s item).t23.errors =
          s.t23.errors ++ [a ++ item.id ++ b]) ∧
    (∀ now : Nat, ∀ s : MigState, ∀ item : Record, ∀ rest : List Record,
        (item :: rest).foldl (migrateStepT1T2 now) s =
          rest.foldl (migrateStepT1T2 now) (migrateStepT1T2 now s item)) := by
  refine ⟨?_, ?_, ?_, ?_⟩
  · intro now batch s
    exact ⟨⟨_, rfl⟩, ⟨_, rfl⟩, ⟨_, rfl⟩, ⟨_, rfl⟩⟩
  · intro now s item h
    have hm : generate_blob_path item "hot" ∈ s.hot.failPaths := by
      simpa using h
    refine ⟨?_, "Record ", ": blob upload failed", ?_⟩ <;>
      simp [migrateStepT1T2, storeInBlob, hm]
  · intro now s item h
    cases hbp : item.blob_path with
    | none =>
        refine ⟨?_, "Record ", ": missing blob_path", ?_⟩ <;>
          simp [migrateStepT2T3, hbp, String.append_assoc]
    | some p =>
        have hl : lookupBlob s.hot p = none := h p hbp
        refine ⟨?_, "Record ",
          ": Could not retrieve record from hot blob storage", ?_⟩ <;>
          simp [migrateStepT2T3, hbp, hl, String.append_assoc]
  · intro now s item rest
    rfl

/-- C5 witness: stage 1 raises on a failed query, and a rejected upload is
recorded as a per-record failure naming the record. -/
theorem stage_raises_iff_query_fails_witness :
    (∃ e, migrate_tier1_to_tier2 false nowS 10 migS = .error e) ∧
    (migrateStepT1T2 nowS migSFail recA).t12.failed = 1 :=
  ⟨(stage_raises_iff_query_fails.1 nowS 10 migS).1,
    (stage_raises_iff_query_fails.2.1 nowS migSFail recA (by decide)).1⟩

/-- C8: the group-by aggregation of `get_storage_statistics` maps both
absent and explicit-`'cosmos'` groups onto the `tier1_cosmos` bucket, but
ASSIGNS instead of accumulating, so on a homogeneous store the claimed
counts come out, while a store mixing one absent-tier and one
explicit-`'cosmos'` record reports `tier1_cosmos = 1` (the last group's
count) instead of the claimed 2 — the total is still 3. -/
theorem statistics_tier1_overwrite_bug :
    get_storage_statistics true [recCosmos, recCosmos2, recHotPtr] =
      .ok ⟨2, 1, 0, 3⟩ ∧
    get_storage_statistics true [recA, recCosmos, recHotPtr] =
      .ok ⟨1, 1, 0, 3⟩ ∧
    (⟨1, 1, 0, 3⟩ : TierStats) ≠ ⟨2, 1, 0, 3⟩ := by
  exact ⟨rfl, rfl, by decide⟩

/-- C9 counterexample: with the primary-store query itself failing
(`queryOk = false`), neither `get_records_by_customer` nor
`get_storage_statistics` propagates an error to the caller — the claim that
such failures abort the operation is false on the code. -/
theorem batch_query_failure_not_propagated :
    ¬ ((∃ e, get_records_by_customer false [recA] hotBS emptyBS "cust-1" 100 =
          .error e) ∨
       (∃ e, get_storage_statistics false [recA] = .error e)) := by
  rintro (⟨e, h⟩ | ⟨e, h⟩) <;> simp [get_records_by_customer,
    get_storage_statistics] at h

/-- C9 (amended): a failure of the primary-store query itself is swallowed
inside the method: `get_records_by_customer` returns the empty list and
`get_storage_statistics` returns the zero-initialised statistics; neither
propagates the error. -/
theorem batch_query_failure_swallowed :
    (∀ db : List Record, ∀ hot cold : BlobStore, ∀ cid : String,
        ∀ limit : Nat,
        get_records_by_customer false db hot cold cid limit = .ok []) ∧
    (∀ db : List Record, get_storage_statistics false db =
        .ok baseTierStats) :=
  ⟨fun _ _ _ _ _ => rfl, fun _ => rfl⟩

theorem inWindowT1T2_iff (now : Nat) (r : Record) :
    inWindowT1T2 now r = true ↔
      (now - 90 * daySecs ≤ r.createdAt.ts ∧
        r.createdAt.ts < now - 30 * daySecs) := by
  simp [inWindowT1T2]

theorem tier1Filter_iff (r : Record) :
    tier1Filter r = true ↔
      (r.storage_tier = none ∨ r.storage_tier = some "cosmos") := by
  simp [tier1Filter]

theorem mem_selectT1T2 {now batch : Nat} {db : List Record} {r : Record}
    (h : r ∈ selectT1T2 now db batch) :
    r ∈ db ∧ inWindowT1T2 now r = true ∧ tier1Filter r = true := by
  have h2 : r ∈ db.filter (fun x => inWindowT1T2 now x && tier1Filter x) := by
    simpa [selectT1T2] using h
  have h3 := List.mem_filter.mp h2
  have h4 : inWindowT1T2 now r = true ∧ tier1Filter r = true := by
    simpa using h3.2
  exact ⟨h3.1, h4.1, h4.2⟩

theorem migrateStepT1T2_cosmos_other (now : Nat) (s : MigState)
    (item : Record) {i : String} (h : item.id ≠ i) :
    findRec (migrateStepT1T2 now s item).cosmos i = findRec s.cosmos i := by
  by_cases hc : generate_blob_path item "hot" ∈ s.hot.failPaths
  · simp [migrateStepT1T2, storeInBlob, hc]
  · simp only [migrateStepT1T2, storeInBlob]
    rw [if_neg (by simpa using hc)]
    exact findRec_replaceItem_ne (fun he => h he.symm) h

theorem foldT1T2_cosmos_other (now : Nat) (items : List Record) :
    ∀ s : MigState, ∀ i : String, (∀ it ∈ items, it.id ≠ i) →
      findRec ((items.foldl (migrateStepT1T2 now) s).cosmos) i =
        findRec s.cosmos i := by
  induction items with
  | nil =>
      intro s i hne
      rfl
  | cons it rest ih =>
      intro s i hne
      rw [List.foldl_cons,
        ih (migrateStepT1T2 now s it) i
          (fun x hx => hne x (List.mem_cons_of_mem _ hx)),
        migrateStepT1T2_cosmos_other now s it (hne it (List.mem_cons_self _ _))]

theorem migrateStepT1T2_hot_other (now : Nat) (s : MigState) (item : Record)
    {bp : String} (h : generate_blob_path item "hot" ≠ bp) :
    lookupBlob (migrateStepT1T2 now s item).hot bp = lookupBlob s.hot bp := by
  by_cases hc : generate_blob_path item "hot" ∈ s.hot.failPaths
  · simp [migrateStepT1T2, storeInBlob, hc]
  · simp only [migrateStepT1T2, storeInBlob]
    rw [if_neg (by simpa using hc)]
    exact lookupBlob_put_ne s.hot item (fun he => h he.symm)

theorem foldT1T2_hot_other (now : Nat) (items : List Record) :
    ∀ s : MigState, ∀ bp : String,
      (∀ it ∈ items, generate_blob_path it "hot" ≠ bp) →
      lookupBlob ((items.foldl (migrateStepT1T2 now) s).hot) bp =
        lookupBlob s.hot bp := by
  induction items with
  | nil =>
      intro s bp hne
      rfl
  | cons it rest ih =>
      intro s bp hne
      rw [List.foldl_cons,
        ih (migrateStepT1T2 now s it) bp
          (fun x hx => hne x (List.mem_cons_of_mem _ hx)),
        migrateStepT1T2_hot_other now s it (hne it (List.mem_cons_self _ _))]

theorem select_id_ne_of_unfit {now batch : Nat} {db : List Record}
    {i : String} {r0 : Record} (hnd : (db.map Record.id).Nodup)
    (hfind : findRec db i = some r0)
    (hunfit : ¬(inWindowT1T2 now r0 = true ∧ tier1Filter r0 = true)) :
    ∀ it ∈ selectT1T2 now db batch, it.id ≠ i := by
  intro it hit he
  obtain ⟨hmem, hw, ht⟩ := mem_selectT1T2 hit
  have h2 : findRec db it.id = some it := findRec_of_mem_nodup hnd hmem
  rw [he, hfind] at h2
  injection h2 with h3
  subst h3
  exact hunfit ⟨hw, ht⟩

/-- C4 counterexample: with `batch_size = 1` and two window-eligible
records, the selection drained from the paged query holds both records and
the migration processes both — the claimed `at most batch_size` bound does
not hold on the code, since `max_item_count` only sets the page size. -/
theorem batch_cap_not_enforced :
    (selectT1T2 nowS [recA, recB] 1).length = 2 ∧
    ¬((selectT1T2 nowS [recA, recB] 1).length ≤ 1) ∧
    ((selectT1T2 nowS [recA, recB] 1).foldl (migrateStepT1T2 nowS)
        migSTwo).t12.success = 2 :=
  ⟨rfl, by decide, rfl⟩

/-- C4 (amended): the records processed by `migrate_tier1_to_tier2` are
exactly those of the primary store whose creation instant lies in
`[now - 90 days, now - 30 days)` and whose `storage_tier` is absent or
`'cosmos'`, ordered by creation timestamp ascending; `batch_size` only sets
the query's page size and does not bound the number processed; records
younger than 30 days or already tiered keep their pointer record unchanged
by the migration. -/
theorem migration_selects_window (now batch : Nat) (db : List Record) :
    (∀ r : Record, r ∈ selectT1T2 now db batch ↔ (r ∈ db ∧
        (now - 90 * daySecs ≤ r.createdAt.ts ∧
          r.createdAt.ts < now - 30 * daySecs) ∧
        (r.storage_tier = none ∨ r.storage_tier = some "cosmos"))) ∧
    List.Sorted byCreatedAt (selectT1T2 now db batch) ∧
    (∀ s : MigState, ∀ i : String, ∀ r0 : Record, ∀ s1 : MigState,
      s.cosmos = db → (db.map Record.id).Nodup → findRec db i = some r0 →
      (now - 30 * daySecs ≤ r0.createdAt.ts ∨
        ¬(r0.storage_tier = none ∨ r0.storage_tier = some "cosmos")) →
      migrate_tier1_to_tier2 true now batch s = .ok s1 →
      findRec s1.cosmos i = some r0) := by
  refine ⟨?_, ?_, ?_⟩
  · intro r
    show r ∈ (db.filter
        fun x => inWindowT1T2 now x && tier1Filter x).insertionSort
          byCreatedAt ↔ _
    simp only [List.mem_insertionSort, List.mem_filter, Bool.and_eq_true,
      inWindowT1T2_iff, tier1Filter_iff]
  · exact List.sorted_insertionSort byCreatedAt _
  · intro s i r0 s1 hdb hnd hfind hcond hmig
    subst hdb
    have hunfit : ¬(inWindowT1T2 now r0 = true ∧ tier1Filter r0 = true) := by
      rintro ⟨hw, ht⟩
      rcases hcond with hy | hti
      · exact absurd ((inWindowT1T2_iff now r0).mp hw).2 (Nat.not_lt.mpr hy)
      · exact hti ((tier1Filter_iff r0).mp ht)
    have hs1 : (selectT1T2 now s.cosmos batch).foldl
        (migrateStepT1T2 now) s = s1 := by
      injection hmig
    rw [← hs1,
      foldT1T2_cosmos_other now _ s i (select_id_ne_of_unfit hnd hfind hunfit),
      hfind]

/-- C4 witness: on a store holding a 95-day-old tiered pointer, a 50-day-old
primary record and a 5-day-old record, the migration leaves the young
record's pointer unchanged. -/
theorem migration_selects_window_witness :
    findRec ((selectT1T2 nowS [recHotPtr, recA, recYoung] 10).foldl
        (migrateStepT1T2 nowS) migS).cosmos "rec-young" = some recYoung :=
  (migration_selects_window nowS 10 [recHotPtr, recA, recYoung]).2.2 migS
    "rec-young" recYoung _ rfl (by decide) (by decide)
    (Or.inl (by decide)) rfl

/-- C7: a pointer whose `storage_tier` is already `'hot_blob'` fails the
tier1→tier2 selection filter, so a further `migrate_tier1_to_tier2` run
skips it: the pointer is not selected, its primary-store document is
unchanged after the run, and its blob is untouched as long as no selected
record generates the same blob path. -/
theorem tier2_migration_idempotent (now batch : Nat) (s : MigState)
    (i : String) (p : Record)
    (hnd : (s.cosmos.map Record.id).Nodup)
    (hfind : findRec s.cosmos i = some p)
    (htier : p.storage_tier = some "hot_blob") :
    p ∉ selectT1T2 now s.cosmos batch ∧
    ∀ s1, migrate_tier1_to_tier2 true now batch s = .ok s1 →
      findRec s1.cosmos i = some p ∧
      ∀ bp, p.blob_path = some bp →
        (∀ q ∈ selectT1T2 now s.cosmos batch,
          generate_blob_path q "hot" ≠ bp) →
        lookupBlob s1.hot bp = lookupBlob s.hot bp := by
  have hunfit : ¬(inWindowT1T2 now p = true ∧ tier1Filter p = true) := by
    rintro ⟨_, ht⟩
    rcases (tier1Filter_iff p).mp ht with h | h <;> rw [htier] at h <;>
      simp at h
  constructor
  · intro hmem
    exact hunfit ⟨(mem_selectT1T2 hmem).2.1, (mem_selectT1T2 hmem).2.2⟩
  · intro s1 hmig
    have hs1 : (selectT1T2 now s.cosmos batch).foldl
        (migrateStepT1T2 now) s = s1 := by
      injection hmig
    constructor
    · rw [← hs1,
        foldT1T2_cosmos_other now _ s i
          (select_id_ne_of_unfit hnd hfind hunfit),
        hfind]
    · intro bp hbp hnocol
      rw [← hs1, foldT1T2_hot_other now _ s bp hnocol]

/-- C7 witness: the already-migrated `recHotPtr` is skipped by a migration
run over its store, leaving its pointer and its hot blob unchanged. -/
theorem tier2_migration_idempotent_witness :
    recHotPtr ∉ selectT1T2 nowS migS.cosmos 10 ∧
    findRec ((selectT1T2 nowS migS.cosmos 10).foldl
        (migrateStepT1T2 nowS) migS).cosmos "rec-hot" = some recHotPtr ∧
    lookupBlob ((selectT1T2 nowS migS.cosmos 10).foldl
        (migrateStepT1T2 nowS) migS).hot
        "hot/2024/12/01/cust-2/rec-hot.json" =
      lookupBlob migS.hot "hot/2024/12/01/cust-2/rec-hot.json" := by
  obtain ⟨h1, h2⟩ := tier2_migration_idempotent nowS 10 migS "rec-hot"
    recHotPtr (by decide) (by decide) rfl
  obtain ⟨h3, h4⟩ := h2 _ rfl
  exact ⟨h1, h3, h4 _ rfl (by decide)⟩

end TieredStorage
